import Mathlib

/-!
Verification of the Campusportalen backend (src/main.py, src/schemas.py).

The Python service is shallowly embedded: each handler becomes a pure Lean
function over an explicit database state (lists of documents), HTTP errors
become an `Except HTTPError` result, Python floats are modelled as rationals,
and Unix timestamps as naturals.  External collaborators (the PyJWT token
library, the passlib password-hashing context, the MongoDB driver) are
modelled from their documented behaviour, with cryptographic primitives
idealized: a signature is modelled as the pair (secret, payload), which is
exactly the ideal-MAC semantics the code relies on.
-/

namespace Campusportalen

/-- HTTP error as raised by FastAPI HTTPException: a status code and a detail
string.  `main.py` uses 401 for unauthenticated, 403 for forbidden, 500 for
server-side failures. -/
structure HTTPError where
  status_code : Nat
  detail : String
deriving DecidableEq, Repr

/-- JWT payload as built by `create_access_token` (main.py lines 50-54 and
105-110): the four identity claims plus the expiry timestamp.  Claims are
optional because `payload.get` in `get_current_user` tolerates their absence;
`exp` is the Unix timestamp PyJWT derives from the datetime. -/
structure JwtPayload where
  sub : Option String
  role : Option String
  email : Option String
  name : Option String
  exp : Nat
deriving DecidableEq, Repr

/-- A structurally well-formed JWT: a payload together with a signature.
The HMAC signature is idealized as the pair (secret, payload): verification
compares the carried signature against the pair recomputed from the shared
secret and the payload actually carried, which models an unforgeable,
collision-free MAC. -/
structure SignedToken where
  payload : JwtPayload
  sig : String × JwtPayload
deriving DecidableEq, Repr

/-- A token string presented by a client: either it parses into the
three-segment JWT shape (`valid`) or it is garbage (`malformed`). -/
inductive JwtToken where
  | valid (t : SignedToken)
  | malformed (raw : String)
deriving DecidableEq, Repr

/-- Outcome of `jwt.decode` as classified by PyJWT: success with the payload,
`ExpiredSignatureError`, or `InvalidTokenError` (malformed token or bad
signature). -/
inductive JwtDecodeResult where
  | ok (payload : JwtPayload)
  | expiredSignature
  | invalidToken
deriving DecidableEq, Repr

/-- Model of `jwt.decode(token, JWT_SECRET, algorithms=[JWT_ALG])` (PyJWT):
a malformed token or a signature that does not verify against the shared
secret raises `InvalidTokenError`; a correctly signed token whose `exp`
timestamp is not in the future raises `ExpiredSignatureError`; otherwise the
embedded payload is returned. -/
def jwt_decode (secret : String) (now : Nat) : JwtToken → JwtDecodeResult
  | JwtToken.malformed _ => JwtDecodeResult.invalidToken
  | JwtToken.valid t =>
    if t.sig ≠ (secret, t.payload) then JwtDecodeResult.invalidToken
    else if t.payload.exp ≤ now then JwtDecodeResult.expiredSignature
    else JwtDecodeResult.ok t.payload

/-- Token TTL: `ACCESS_TOKEN_EXPIRE_MINUTES = 60 * 8` (main.py line 16). -/
def ACCESS_TOKEN_EXPIRE_MINUTES : Nat := 60 * 8

/-- The identity claims `login` passes to `create_access_token`
(main.py lines 105-110). -/
structure ClaimsData where
  sub : Option String
  role : Option String
  email : Option String
  name : Option String
deriving DecidableEq, Repr

/-- Model of `create_access_token` (main.py lines 50-54): copy the claim
data, add `exp := now + TTL`, and sign with the shared secret. -/
def create_access_token (secret : String) (now : Nat) (data : ClaimsData) : SignedToken :=
  let payload : JwtPayload :=
    { sub := data.sub, role := data.role, email := data.email, name := data.name
      exp := now + ACCESS_TOKEN_EXPIRE_MINUTES * 60 }
  { payload := payload, sig := (secret, payload) }

/-- The Authorization header of a request, as examined by `get_current_user`
(main.py lines 61-64): absent, present but not of the `Bearer <token>` shape,
or a bearer header whose token part is `token`. -/
inductive AuthHeader where
  | missing
  | malformedScheme (raw : String)
  | bearer (token : JwtToken)
deriving DecidableEq, Repr

/-- The authenticated identity record returned by `get_current_user`
(main.py line 73).  The id is a non-optional string because the handler has
already rejected tokens with a falsy `sub`. -/
structure Identity where
  uid : String
  role : Option String
  email : Option String
  name : Option String
deriving DecidableEq, Repr

/-- Model of `get_current_user` (main.py lines 61-77): reject a missing or
non-Bearer header with 401 "Not authenticated"; decode the token, mapping
`ExpiredSignatureError` to 401 "Token expired" and `InvalidTokenError` to
401 "Invalid token"; reject a falsy `sub` claim (absent or empty string)
with 401 "Invalid token"; otherwise return the identity record. -/
def get_current_user (secret : String) (now : Nat) (authorization : AuthHeader) :
    Except HTTPError Identity :=
  match authorization with
  | AuthHeader.missing => Except.error { status_code := 401, detail := "Not authenticated" }
  | AuthHeader.malformedScheme _ =>
      Except.error { status_code := 401, detail := "Not authenticated" }
  | AuthHeader.bearer token =>
    match jwt_decode secret now token with
    | JwtDecodeResult.expiredSignature =>
        Except.error { status_code := 401, detail := "Token expired" }
    | JwtDecodeResult.invalidToken =>
        Except.error { status_code := 401, detail := "Invalid token" }
    | JwtDecodeResult.ok payload =>
      match payload.sub with
      | none => Except.error { status_code := 401, detail := "Invalid token" }
      | some uid =>
        if uid = "" then Except.error { status_code := 401, detail := "Invalid token" }
        else Except.ok { uid := uid, role := payload.role, email := payload.email
                         name := payload.name }

/-- Model of `require_admin` (main.py lines 115-118): run `get_current_user`,
then reject with 403 "Admin access required" unless the role claim equals
"admin". -/
def require_admin (secret : String) (now : Nat) (authorization : AuthHeader) :
    Except HTTPError Identity :=
  match get_current_user secret now authorization with
  | Except.error e => Except.error e
  | Except.ok user =>
    if user.role ≠ some "admin" then
      Except.error { status_code := 403, detail := "Admin access required" }
    else Except.ok user

end Campusportalen

namespace Campusportalen

/-- C4: a correctly signed token whose expiry has passed is classified as
Expired (401 "Token expired"); a malformed token, or a well-formed token
whose payload or signature was tampered with so the signature no longer
verifies, is classified as Invalid (401 "Invalid token"); both are 401
(unauthenticated) with distinguishable detail strings. -/
theorem token_failure_classification (secret : String) (now : Nat) (p : JwtPayload)
    (t : SignedToken) (raw : String)
    (hexp : p.exp ≤ now) (htamper : t.sig ≠ (secret, t.payload)) :
    (∃ e : HTTPError, get_current_user secret now
        (AuthHeader.bearer (JwtToken.valid { payload := p, sig := (secret, p) })) =
          Except.error e ∧ e.status_code = 401 ∧ e.detail = "Token expired") ∧
    (∃ e : HTTPError, get_current_user secret now
        (AuthHeader.bearer (JwtToken.valid t)) =
          Except.error e ∧ e.status_code = 401 ∧ e.detail = "Invalid token") ∧
    (∃ e : HTTPError, get_current_user secret now
        (AuthHeader.bearer (JwtToken.malformed raw)) =
          Except.error e ∧ e.status_code = 401 ∧ e.detail = "Invalid token") := by
  refine ⟨⟨{ status_code := 401, detail := "Token expired" }, ?_, rfl, rfl⟩,
         ⟨{ status_code := 401, detail := "Invalid token" }, ?_, rfl, rfl⟩,
         ⟨{ status_code := 401, detail := "Invalid token" }, ?_, rfl, rfl⟩⟩
  · simp [get_current_user, jwt_decode, hexp]
  · simp [get_current_user, jwt_decode, htamper]
  · simp [get_current_user, jwt_decode]

/-- C4 witness: the classification theorem instantiated at a concrete secret,
time, payload, tampered token and garbage string. -/
theorem token_failure_classification_witness :
    let p : JwtPayload :=
      { sub := some "u1", role := some "elev", email := some "e@x", name := some "E"
        exp := 100 }
    let t : SignedToken := { payload := p, sig := ("other-secret", p) }
    (∃ e : HTTPError, get_current_user "s" 100
        (AuthHeader.bearer (JwtToken.valid { payload := p, sig := ("s", p) })) =
          Except.error e ∧ e.status_code = 401 ∧ e.detail = "Token expired") ∧
    (∃ e : HTTPError, get_current_user "s" 100
        (AuthHeader.bearer (JwtToken.valid t)) =
          Except.error e ∧ e.status_code = 401 ∧ e.detail = "Invalid token") ∧
    (∃ e : HTTPError, get_current_user "s" 100
        (AuthHeader.bearer (JwtToken.malformed "garbage")) =
          Except.error e ∧ e.status_code = 401 ∧ e.detail = "Invalid token") :=
  token_failure_classification "s" 100 _ _ "garbage" (by decide) (by decide)

/-- C5: on a privileged endpoint, a valid unexpired token (well-formed sub)
whose role claim is not "admin" is rejected with 403 Forbidden, and a missing
or malformed Authorization header is rejected with 401 Unauthenticated. -/
theorem require_admin_gating (secret : String) (now : Nat) (p : JwtPayload) (raw : String)
    (hfresh : now < p.exp) (hsub : ∃ s, p.sub = some s ∧ s ≠ "")
    (hrole : p.role ≠ some "admin") :
    require_admin secret now
        (AuthHeader.bearer (JwtToken.valid { payload := p, sig := (secret, p) })) =
      Except.error { status_code := 403, detail := "Admin access required" } ∧
    require_admin secret now AuthHeader.missing =
      Except.error { status_code := 401, detail := "Not authenticated" } ∧
    require_admin secret now (AuthHeader.malformedScheme raw) =
      Except.error { status_code := 401, detail := "Not authenticated" } := by
  obtain ⟨s, hs, hne⟩ := hsub
  refine ⟨?_, rfl, rfl⟩
  have hnotexp : ¬ p.exp ≤ now := Nat.not_le.mpr hfresh
  simp [require_admin, get_current_user, jwt_decode, hnotexp, hs, hne, hrole]

/-- C5 witness: the gating theorem at a concrete non-admin token and header
values. -/
theorem require_admin_gating_witness :
    let p : JwtPayload :=
      { sub := some "u1", role := some "elev", email := some "e@x", name := some "E"
        exp := 200 }
    require_admin "s" 100
        (AuthHeader.bearer (JwtToken.valid { payload := p, sig := ("s", p) })) =
      Except.error { status_code := 403, detail := "Admin access required" } ∧
    require_admin "s" 100 AuthHeader.missing =
      Except.error { status_code := 401, detail := "Not authenticated" } ∧
    require_admin "s" 100 (AuthHeader.malformedScheme "Basic xyz") =
      Except.error { status_code := 401, detail := "Not authenticated" } :=
  require_admin_gating "s" 100 _ "Basic xyz" (by decide)
    ⟨"u1", rfl, by decide⟩ (by decide)

/-- C10: a correctly signed, unexpired token whose payload lacks a non-empty
`sub` claim (absent or empty string) is rejected by the auth middleware with
401 "Invalid token" rather than yielding an identity. -/
theorem missing_sub_rejected (secret : String) (now : Nat) (p : JwtPayload)
    (hfresh : now < p.exp) (hsub : p.sub = none ∨ p.sub = some "") :
    get_current_user secret now
        (AuthHeader.bearer (JwtToken.valid { payload := p, sig := (secret, p) })) =
      Except.error { status_code := 401, detail := "Invalid token" } := by
  have hnotexp : ¬ p.exp ≤ now := Nat.not_le.mpr hfresh
  rcases hsub with h | h <;> simp [get_current_user, jwt_decode, hnotexp, h]

/-- C10 witness: the empty-subject rejection at a concrete token with
`sub = some ""`. -/
theorem missing_sub_rejected_witness :
    get_current_user "s" 100
        (AuthHeader.bearer (JwtToken.valid
          { payload := { sub := some "", role := some "elev", email := none, name := none
                         exp := 200 }
            sig := ("s", { sub := some "", role := some "elev", email := none, name := none
                           exp := 200 }) })) =
      Except.error { status_code := 401, detail := "Invalid token" } :=
  missing_sub_rejected "s" 100 _ (by decide) (Or.inr rfl)

end Campusportalen

namespace Campusportalen

/-- Error raised by passlib when a digest cannot be identified: per the
passlib documentation, `CryptContext.verify` raises `UnknownHashError` (a
`ValueError`) when the hash string is not recognized by any configured
scheme, instead of returning a boolean. -/
inductive PasslibError where
  | unknownHash
deriving DecidableEq, Repr

/-- Prefix test on the character lists of two strings (semantics of
`str.startswith`, stated over `String.data` so it reduces). -/
def strStartsWith (s pre : String) : Bool :=
  pre.data.isPrefixOf s.data

/-- Whether passlib's bcrypt scheme identifies a digest string: bcrypt
digests are recognized by their modular-crypt prefix. -/
def identifyBcrypt (digest : String) : Bool :=
  strStartsWith digest "$2b$" || strStartsWith digest "$2a$" ||
  strStartsWith digest "$2x$" || strStartsWith digest "$2y$"

/-- Idealized bcrypt digest of a plaintext (the one-way hash computation of
an external library, idealized as a recognizable tagging of the input; the
theorems use it only through `verify_password`). -/
def mkBcryptDigest (plain : String) : String :=
  "$2b$12$" ++ plain

/-- Idealized bcrypt check: the digest matches exactly the idealized digest
of the plaintext. -/
def bcryptCheck (plain digest : String) : Bool :=
  digest = mkBcryptDigest plain

/-- Model of `pwd_context.verify` for a `CryptContext(schemes=["bcrypt"])`
(passlib): if the digest is not identifiable as bcrypt, raise
`UnknownHashError`; otherwise return whether the plaintext matches. -/
def pwd_context_verify (plain digest : String) : Except PasslibError Bool :=
  if identifyBcrypt digest then Except.ok (bcryptCheck plain digest)
  else Except.error PasslibError.unknownHash

/-- Model of `verify_password` (main.py lines 57-58): a bare delegation to
`pwd_context.verify`, with no exception handling. -/
def verify_password (plain_password password_hash : String) : Except PasslibError Bool :=
  pwd_context_verify plain_password password_hash

end Campusportalen

namespace Campusportalen

/-- C3 counterexample: at the concrete malformed digest "not-a-hash",
password verification does not return a boolean (in particular not false);
the underlying passlib `UnknownHashError` propagates to the caller, so the
claim that verification returns false and never raises is false. -/
theorem verify_password_malformed_counterexample :
    verify_password "pw" "not-a-hash" = Except.error PasslibError.unknownHash ∧
    ∀ b : Bool, verify_password "pw" "not-a-hash" ≠ Except.ok b := by
  constructor
  · rfl
  · intro b h
    cases h' : verify_password "pw" "not-a-hash" with
    | error e => rw [h'] at h; exact Except.noConfusion h
    | ok b2 =>
      have : Except.error PasslibError.unknownHash = Except.ok b2 := by
        rw [← h']; rfl
      exact Except.noConfusion this

/-- C3 amended: for every plaintext and every digest that passlib identifies
as a bcrypt hash, verification returns a boolean; for a digest it cannot
identify, `verify_password` propagates passlib's `UnknownHashError` to its
caller instead of returning false. -/
theorem verify_password_total_on_bcrypt (plain digest : String)
    (hid : identifyBcrypt digest = true) :
    verify_password plain digest = Except.ok (bcryptCheck plain digest) ∧
    (∀ d : String, identifyBcrypt d = false →
      verify_password plain d = Except.error PasslibError.unknownHash) := by
  constructor
  · simp [verify_password, pwd_context_verify, hid]
  · intro d hd
    simp [verify_password, pwd_context_verify, hd]

/-- C3 witness: the amended theorem at a concrete identifiable digest. -/
theorem verify_password_total_on_bcrypt_witness :
    identifyBcrypt "$2b$12$pw" = true ∧
    (verify_password "pw" "$2b$12$pw" = Except.ok (bcryptCheck "pw" "$2b$12$pw") ∧
     (∀ d : String, identifyBcrypt d = false →
       verify_password "pw" d = Except.error PasslibError.unknownHash)) :=
  ⟨by decide, verify_password_total_on_bcrypt "pw" "$2b$12$pw" (by decide)⟩

end Campusportalen

namespace Campusportalen

/-- A user document in the `users` collection (schemas.py `Users`; `uid` is
the Mongo `_id` serialized with `str`). -/
structure UserDoc where
  uid : String
  email : String
  name : String
  role : String
  password_hash : String
  active : Bool
deriving DecidableEq, Repr

/-- Login request body (main.py `LoginRequest`). -/
structure LoginRequest where
  email : String
  password : String
deriving DecidableEq, Repr

/-- Successful login response (main.py `Token` model): the signed access
token and the fixed token type "bearer". -/
structure TokenOut where
  access_token : SignedToken
  token_type : String
deriving DecidableEq, Repr

/-- Model of `login` (main.py lines 95-111), assuming the database is
configured: `find_one({"email": req.email, "active": True})` is the first
user document matching email and active; a miss is 401 "Invalid credentials";
a password that does not verify is 401 "Invalid credentials"; a passlib
exception propagates as a 500; on success a token is issued with claims
sub = user id, role, email, name.  (`user.get("role", "elev")` etc. always
find the field because schemas.py declares role, email, name required.) -/
def login (secret : String) (now : Nat) (users : List UserDoc) (req : LoginRequest) :
    Except HTTPError TokenOut :=
  match users.find? (fun u => u.email == req.email && u.active) with
  | none => Except.error { status_code := 401, detail := "Invalid credentials" }
  | some user =>
    match verify_password req.password user.password_hash with
    | Except.error _ => Except.error { status_code := 500, detail := "Internal Server Error" }
    | Except.ok false => Except.error { status_code := 401, detail := "Invalid credentials" }
    | Except.ok true =>
      Except.ok { access_token := create_access_token secret now
                    { sub := some user.uid, role := some user.role
                      email := some user.email, name := some user.name }
                  token_type := "bearer" }

end Campusportalen

namespace Campusportalen

/-- C6: whenever the credentials are invalid — no active user with the
request's email, or the first matching active user's password does not
verify — login returns 401 "Invalid credentials" and issues no token. -/
theorem login_invalid_credentials (secret : String) (now : Nat) (users : List UserDoc)
    (req : LoginRequest)
    (h : ∀ u, users.find? (fun v => v.email == req.email && v.active) = some u →
      verify_password req.password u.password_hash = Except.ok false) :
    login secret now users req =
      Except.error { status_code := 401, detail := "Invalid credentials" } ∧
    ∀ t : TokenOut, login secret now users req ≠ Except.ok t := by
  have hmain : login secret now users req =
      Except.error { status_code := 401, detail := "Invalid credentials" } := by
    unfold login
    cases hfind : users.find? (fun v => v.email == req.email && v.active) with
    | none => rfl
    | some u => simp only [h u hfind]
  exact ⟨hmain, fun t ht => by rw [hmain] at ht; exact Except.noConfusion ht⟩

/-- A concrete user document whose stored bcrypt digest is the idealized
hash of "other" (so the password "pw" does not verify). -/
def sampleUserOther : UserDoc :=
  { uid := "u1", email := "a@x", name := "A", role := "elev"
    password_hash := "$2b$12$other", active := true }

/-- C6 witness: invalid-credential login at a concrete state — one active
user whose stored bcrypt hash does not match the supplied password. -/
theorem login_invalid_credentials_witness :
    login "s" 0 [sampleUserOther] { email := "a@x", password := "pw" } =
      Except.error { status_code := 401, detail := "Invalid credentials" } ∧
    ∀ t : TokenOut,
      login "s" 0 [sampleUserOther] { email := "a@x", password := "pw" } ≠ Except.ok t :=
  login_invalid_credentials "s" 0 [sampleUserOther] { email := "a@x", password := "pw" } (by
    intro u hu
    have h2 : some sampleUserOther = some u := by rw [← hu]; rfl
    cases h2
    have hid : identifyBcrypt sampleUserOther.password_hash = true := by decide
    have hck : bcryptCheck "pw" sampleUserOther.password_hash = false := by decide
    simp [verify_password, pwd_context_verify, hid, hck])

/-- C7: for an active user found by email whose password verifies, login
returns a bearer token, and verifying that token before its TTL elapses with
the same secret yields exactly that user's id, role, email and name. -/
theorem login_token_roundtrip (secret : String) (now now2 : Nat) (users : List UserDoc)
    (req : LoginRequest) (u : UserDoc)
    (hfind : users.find? (fun v => v.email == req.email && v.active) = some u)
    (hpw : verify_password req.password u.password_hash = Except.ok true)
    (hsub : u.uid ≠ "")
    (hfresh : now2 < now + ACCESS_TOKEN_EXPIRE_MINUTES * 60) :
    ∃ tok : SignedToken,
      login secret now users req = Except.ok { access_token := tok, token_type := "bearer" } ∧
      get_current_user secret now2 (AuthHeader.bearer (JwtToken.valid tok)) =
        Except.ok { uid := u.uid, role := some u.role, email := some u.email
                    name := some u.name } := by
  refine ⟨create_access_token secret now
    { sub := some u.uid, role := some u.role, email := some u.email, name := some u.name },
    ?_, ?_⟩
  · unfold login
    rw [hfind]
    simp only [hpw]
  · have hnotexp : ¬ now + ACCESS_TOKEN_EXPIRE_MINUTES * 60 ≤ now2 := Nat.not_le.mpr hfresh
    simp [get_current_user, jwt_decode, create_access_token, hnotexp, hsub]

/-- A concrete active user whose stored bcrypt digest is the idealized hash
of "pw". -/
def sampleUserPw : UserDoc :=
  { uid := "u1", email := "a@x", name := "A", role := "elev"
    password_hash := "$2b$12$pw", active := true }

/-- C7 witness: the round trip at a concrete active user and matching
password, verified one second after issuance. -/
theorem login_token_roundtrip_witness :
    ∃ tok : SignedToken,
      login "s" 0 [sampleUserPw] { email := "a@x", password := "pw" } =
        Except.ok { access_token := tok, token_type := "bearer" } ∧
      get_current_user "s" 1 (AuthHeader.bearer (JwtToken.valid tok)) =
        Except.ok { uid := "u1", role := some "elev", email := some "a@x"
                    name := some "A" } :=
  login_token_roundtrip "s" 0 1 [sampleUserPw] { email := "a@x", password := "pw" }
    sampleUserPw (by decide)
    (by
      have hid : identifyBcrypt sampleUserPw.password_hash = true := by decide
      have hck : bcryptCheck "pw" sampleUserPw.password_hash = true := by decide
      simp [verify_password, pwd_context_verify, hid, hck])
    (by decide) (by decide)

end Campusportalen

namespace Campusportalen

/-- A document in the `event_signups` collection (schemas.py
`Event_signups`; `signup_event` stores exactly these two fields). -/
structure SignupDoc where
  event_id : String
  user_id : String
deriving DecidableEq, Repr

/-- Response of `POST /events/signup`: either the "already_signed" status or
the id of a newly inserted signup document. -/
inductive SignupResult where
  | already_signed
  | created
deriving DecidableEq, Repr

/-- The filter `{"event_id": data.event_id, "user_id": user["_id"]}` used by
`signup_event`. -/
def signupMatches (eid uid : String) (s : SignupDoc) : Bool :=
  s.event_id == eid && s.user_id == uid

/-- Model of `signup_event` (main.py lines 231-237): `find_one` on the
(event_id, user_id) filter; on a hit return "already_signed" without writing;
otherwise `create_document` appends a new signup document.  Returns the
response together with the resulting `event_signups` collection. -/
def signup_event (signups : List SignupDoc) (uid : String) (eid : String) :
    SignupResult × List SignupDoc :=
  match signups.find? (signupMatches eid uid) with
  | some _ => (SignupResult.already_signed, signups)
  | none => (SignupResult.created, signups ++ [{ event_id := eid, user_id := uid }])

end Campusportalen

namespace Campusportalen

/-- C2: if a signup for (event, user) already exists (count 1 in the
collection), a further signup call by that user for that event returns the
"already_signed" status, leaves the collection unchanged (no new document),
and the signup count for that pair stays at 1. -/
theorem signup_event_idempotent (signups : List SignupDoc) (uid eid : String)
    (h : signups.countP (signupMatches eid uid) = 1) :
    (signup_event signups uid eid).1 = SignupResult.already_signed ∧
    (signup_event signups uid eid).2 = signups ∧
    (signup_event signups uid eid).2.countP (signupMatches eid uid) = 1 := by
  have hpos : 0 < signups.countP (signupMatches eid uid) := by omega
  have hex : ∃ s ∈ signups, signupMatches eid uid s := List.countP_pos_iff.mp hpos
  have hsome : (signups.find? (signupMatches eid uid)).isSome := by
    rw [List.find?_isSome]
    obtain ⟨s, hs, hm⟩ := hex
    exact ⟨s, hs, hm⟩
  cases hfind : signups.find? (signupMatches eid uid) with
  | none => rw [hfind] at hsome; exact absurd hsome (by simp)
  | some s =>
    refine ⟨?_, ?_, ?_⟩ <;> simp [signup_event, hfind, h]

/-- C2 witness: the idempotency theorem at a concrete collection holding
exactly one signup for the pair ("e1", "u1"). -/
theorem signup_event_idempotent_witness :
    (signup_event [{ event_id := "e1", user_id := "u1" }] "u1" "e1").1 =
      SignupResult.already_signed ∧
    (signup_event [{ event_id := "e1", user_id := "u1" }] "u1" "e1").2 =
      [{ event_id := "e1", user_id := "u1" }] ∧
    (signup_event [{ event_id := "e1", user_id := "u1" }] "u1" "e1").2.countP
      (signupMatches "e1" "u1") = 1 :=
  signup_event_idempotent [{ event_id := "e1", user_id := "u1" }] "u1" "e1" (by decide)

end Campusportalen

namespace Campusportalen

/-- A document in the `news` collection.  `created_at` is optional because
the collection is schemaless and `list_news` sorts on the field whether or
not a document carries it; schemas.py `News` declares title, text,
image_url, created_by only. -/
structure NewsDoc where
  title : String
  text : String
  image_url : Option String
  created_by : Option String
  created_at : Option Nat
deriving DecidableEq, Repr

/-- Request body of `POST /admin/news` (main.py `NewsIn`). -/
structure NewsIn where
  title : String
  text : String
  image_url : Option String
deriving DecidableEq, Repr

/-- Modelled from the spec: `create_document` (database.py, not under src/)
inserts a handler-built document into a collection; the spec's data model
gives a news item a "creation timestamp (used for descending ordering)", so
insertion stamps the document with `created_at := now`. -/
def create_document_news (now : Nat) (d : NewsDoc) : NewsDoc :=
  { d with created_at := some now }

/-- Model of `create_news` (main.py lines 255-260): dump the input model,
attach `created_by`, and hand the document (which itself carries no
`created_at` field) to `create_document`; the result is the stored
document. -/
def create_news (now : Nat) (item : NewsIn) (creator_uid : String) : NewsDoc :=
  create_document_news now
    { title := item.title, text := item.text, image_url := item.image_url
      created_by := some creator_uid, created_at := none }

/-- Sort key MongoDB uses for `.sort("created_at", -1)`: a missing field
compares below every present numeric value, so in a descending sort the
documents without the field come last. -/
def newsKey (d : NewsDoc) : WithBot Nat :=
  match d.created_at with
  | none => ⊥
  | some n => (n : WithBot Nat)

/-- Descending comparison on news documents: `a` may precede `b` when the
key of `b` is at most the key of `a`. -/
def newsDescLE (a b : NewsDoc) : Prop :=
  newsKey b ≤ newsKey a

instance : DecidableRel newsDescLE := fun a b =>
  inferInstanceAs (Decidable (newsKey b ≤ newsKey a))

instance : IsTotal NewsDoc newsDescLE :=
  ⟨fun a b => (le_total (newsKey b) (newsKey a)).imp id id⟩

instance : IsTrans NewsDoc newsDescLE :=
  ⟨fun _ _ _ hab hbc => le_trans hbc hab⟩

/-- Model of `list_news` (main.py lines 247-252):
`db["news"].find({}).sort("created_at", -1).limit(20)` — the collection
sorted descending by `created_at` and truncated to 20 documents. -/
def list_news (news : List NewsDoc) : List NewsDoc :=
  (List.insertionSort newsDescLE news).take 20

end Campusportalen

namespace Campusportalen

/-- C8: for every state of the news collection, `GET /news` returns at most
20 items, sorted newest-first (descending by `created_at`, documents lacking
the field ordered last), and a news item created through `POST /admin/news`
is stored carrying the creation timestamp used for that ordering. -/
theorem list_news_capped_sorted (news : List NewsDoc) :
    (list_news news).length ≤ 20 ∧
    List.Sorted newsDescLE (list_news news) ∧
    ∀ (now : Nat) (item : NewsIn) (uidc : String),
      (create_news now item uidc).created_at = some now ∧
      newsKey (create_news now item uidc) = (now : WithBot Nat) := by
  refine ⟨?_, ?_, fun _ _ _ => ⟨rfl, rfl⟩⟩
  · simp [list_news, List.length_take]
  · exact List.Pairwise.sublist (List.take_sublist 20 _)
      (List.sorted_insertionSort newsDescLE news)

end Campusportalen

namespace Campusportalen

/-- A document in the `meals` collection (schemas.py `Meals`; `mid` is the
Mongo `_id`, prices and CO2 figures are Python floats modelled as
rationals, `day` is the date string). -/
structure MealDoc where
  mid : String
  name : String
  description : Option String
  price : ℚ
  day : String
  is_today_special : Bool
  is_surplus_offer : Bool
  co2_kg_per_portion : Option ℚ
  portions_available : Option Nat
deriving DecidableEq, Repr

/-- Request body of `POST /orders` (main.py `OrderIn`). -/
structure OrderIn where
  meal_id : String
  quantity : Nat
deriving DecidableEq, Repr

/-- A document in the `orders` collection (schemas.py `Orders`). -/
structure OrderDoc where
  user_id : String
  meal_id : String
  quantity : Nat
  total_price : ℚ
  status : String
deriving DecidableEq, Repr

/-- Python's `round(x, 2)` on the exact value: scale by 100, round to an
integer, scale back. -/
def round2 (x : ℚ) : ℚ :=
  ((round (x * 100) : ℤ) : ℚ) / 100

/-- Model of `create_order` (main.py lines 170-187): the inserted order
document.  The handler's first lookup result (line 174) is dead code; the
total is computed from `find_one({"_id": exists, "is_today_special": True})`
— the FIRST featured meal in the collection, not the meal referenced by
`order.meal_id` — whenever such a meal exists (its `price` is a float by
schema, so the `isinstance` guard passes), and is 0.0 otherwise. -/
def create_order (meals : List MealDoc) (uid : String) (order : OrderIn) : OrderDoc :=
  let meal_doc := meals.find? (fun m => m.is_today_special)
  { user_id := uid, meal_id := order.meal_id, quantity := order.quantity
    total_price :=
      match meal_doc with
      | some m => round2 (m.price * order.quantity)
      | none => 0
    status := "created" }

/-- A concrete featured meal with price 10. -/
def mealFeatured : MealDoc :=
  { mid := "a", name := "A", description := none, price := 10, day := "2026-10-12"
    is_today_special := true, is_surplus_offer := false
    co2_kg_per_portion := none, portions_available := none }

/-- A concrete non-featured meal with id "b" and price 5. -/
def mealPlain : MealDoc :=
  { mid := "b", name := "B", description := none, price := 5, day := "2026-10-12"
    is_today_special := false, is_surplus_offer := false
    co2_kg_per_portion := none, portions_available := none }

end Campusportalen

namespace Campusportalen

/-- C1: at the concrete state [featured meal price 10, meal "b" price 5],
an order of 2 portions of meal "b" is stored with total_price 20 — quantity
times the FEATURED meal's price — while quantity times the unit price of
the meal actually referenced by meal_id is 10; the stored total therefore
violates the claimed invariant. -/
theorem create_order_total_price_bug :
    (create_order [mealFeatured, mealPlain] "u1"
        { meal_id := "b", quantity := 2 }).total_price = 20 ∧
    ((List.find? (fun m => m.mid == "b") [mealFeatured, mealPlain]).map
        (fun m => m.price * 2)) = some 10 ∧
    (create_order [mealFeatured, mealPlain] "u1"
        { meal_id := "b", quantity := 2 }).total_price ≠ 10 := by
  refine ⟨?_, ?_, ?_⟩
  · show round2 (mealFeatured.price * 2) = 20
    norm_num [round2, mealFeatured]
  · show Option.map (fun m => m.price * 2) (some mealPlain) = some 10
    simp [mealPlain]
    norm_num
  · show round2 (mealFeatured.price * 2) ≠ 10
    norm_num [round2, mealFeatured]

end Campusportalen

namespace Campusportalen

/-- The status filter of the first orders scan in `stats_overview`
(main.py line 272). -/
def soldStatus (o : OrderDoc) : Bool :=
  o.status == "created" || o.status == "paid" || o.status == "fulfilled"

/-- The status filter of the surplus-orders scan in `stats_overview`
(main.py line 285). -/
def wasteStatus (o : OrderDoc) : Bool :=
  o.status == "paid" || o.status == "fulfilled"

/-- Model of `stats_overview` (main.py lines 264-295): a fold over the
orders with status in created/paid/fulfilled summing quantities; a fold over
all meals adding `co2_kg_per_portion` when the field is present and truthy
(Python skips both `None` and `0.0`); a fold over the orders with status in
paid/fulfilled adding `0.15 * quantity`; the two rational totals are rounded
to two decimals.  (`o.get("quantity", 1)` always finds the field because
schemas.py declares `quantity` required.) -/
def stats_overview (orders : List OrderDoc) (meals : List MealDoc) : Nat × ℚ × ℚ :=
  let total_portions :=
    (orders.filter soldStatus).foldl (fun acc o => acc + o.quantity) 0
  let co2_saved := meals.foldl
    (fun acc m =>
      match m.co2_kg_per_portion with
      | none => acc
      | some c => if c = 0 then acc else acc + c) (0 : ℚ)
  let waste_saved :=
    (orders.filter wasteStatus).foldl (fun acc o => acc + (0.15 : ℚ) * o.quantity) 0
  (total_portions, round2 co2_saved, round2 waste_saved)

/-- Accumulating a mapped value over a list is the accumulator plus the sum
of the mapped list. -/
theorem foldl_add_map_sum {α β : Type} [AddCommMonoid β] (f : α → β) :
    ∀ (l : List α) (a : β), l.foldl (fun acc x => acc + f x) a = a + (l.map f).sum
  | [], a => by simp
  | x :: xs, a => by
    simp only [List.foldl_cons, List.map_cons, List.sum_cons]
    rw [foldl_add_map_sum f xs (a + f x), add_assoc]

/-- The truthiness-guarded CO2 fold equals the accumulator plus the sum of
all present CO2 values: values skipped for being 0 contribute 0 anyway. -/
theorem co2_foldl_eq :
    ∀ (l : List MealDoc) (a : ℚ),
      l.foldl
        (fun acc m =>
          match m.co2_kg_per_portion with
          | none => acc
          | some c => if c = 0 then acc else acc + c) a =
      a + (l.filterMap MealDoc.co2_kg_per_portion).sum
  | [], a => by simp
  | m :: ms, a => by
    cases hco : m.co2_kg_per_portion with
    | none => simp only [List.foldl_cons, hco, List.filterMap_cons, co2_foldl_eq ms]
    | some c =>
      by_cases hc : c = 0
      · simp only [List.foldl_cons, hco, hc, if_pos rfl, List.filterMap_cons,
          List.sum_cons, co2_foldl_eq ms]
        simp [hc]
      · simp only [List.foldl_cons, hco, if_neg hc, List.filterMap_cons,
          List.sum_cons, co2_foldl_eq ms]
        ring

/-- Multiplication by a constant distributes over the sum of a mapped
list. -/
theorem sum_map_mul_const {α : Type} (c : ℚ) (f : α → ℚ) :
    ∀ l : List α, (l.map fun x => c * f x).sum = c * (l.map f).sum
  | [] => by simp
  | x :: xs => by
    simp only [List.map_cons, List.sum_cons, sum_map_mul_const c f xs, mul_add]

end Campusportalen

namespace Campusportalen

/-- C9: for every state of the orders and meals collections, the stats
endpoint returns portions_sold = the sum of quantities over orders with
status in created/paid/fulfilled, co2_saved_kg = the sum of the present
CO2-per-portion values over all meals rounded to 2 decimals, and
waste_saved_kg = 0.15 times the sum of quantities over orders with status
in paid/fulfilled, rounded to 2 decimals. -/
theorem stats_overview_aggregates (orders : List OrderDoc) (meals : List MealDoc) :
    stats_overview orders meals =
      ( ((orders.filter soldStatus).map OrderDoc.quantity).sum,
        round2 ((meals.filterMap MealDoc.co2_kg_per_portion).sum),
        round2 ((0.15 : ℚ) *
          ((orders.filter wasteStatus).map fun o => (o.quantity : ℚ)).sum) ) := by
  unfold stats_overview
  refine Prod.ext ?_ (Prod.ext ?_ ?_)
  · simp [foldl_add_map_sum]
  · simp [co2_foldl_eq]
  · simp only [foldl_add_map_sum (fun o : OrderDoc => (0.15 : ℚ) * o.quantity), zero_add,
      sum_map_mul_const]

end Campusportalen
